import Mathlib

/-!
Verification development for the PredictionOperatorBot repository.

The repository consists of several near-duplicate JavaScript bot scripts.
We shallowly embed the scheduler logic of the variants the claims cite:

* `OpBot`  — shared data model (round snapshots, submission records).
* `WindowPolicy` — the pure window decision extracted from the
  safe-delay variant of `tryExecute` (src/unnamed/part_000, lines 65-99);
  with `safeDelay = 0` it is also the window logic of the first variant
  in src/operator-bot.js (lines 103-140).
* `OpV1` — the first variant in src/operator-bot.js (lines 1-208):
  `sendTx` (3 attempts), `bootstrapGenesis`, `tryExecute`,
  `recover`, `checkAndExecute`.
* `OpV2` — the second variant in src/operator-bot.js (lines 209-434):
  `tryExecute` with a 30 s per-epoch cooldown map.
* `P4` — the second variant in src/unnamed/part_004 (lines 276-586):
  `tryExecute` with a 15 s cooldown, the round `epoch-2` check and
  the forced-oracle execution path.
* `P2` — the fee-bumping `sendTx` of src/unnamed/part_002 (lines 51-103).
* `OB` — the oracle bot price feeder (src/oracle-bot.js).

Wall-clock times, epochs and chain numbers are modelled as `Int`
(JavaScript performs exact integer arithmetic in the relevant ranges);
the outcome of each transaction submission is an environment input
(`txOk : Nat → Bool`, indexed by submission order within a tick).
Each submission performed by a tick is recorded as a `Submission`
carrying the kind of contract call, the epoch (when one is targeted),
the value of the `txPending` flag at the moment the submission began,
and whether it succeeded.
-/

namespace OpBot

/-- Round snapshot read from the prediction contract
(`prediction.rounds(epoch)`): the fields the bots consult. -/
structure Round where
  lockTimestamp : Int
  closeTimestamp : Int
  oracleCalled : Bool
deriving DecidableEq, Repr

/-- Kinds of contract calls the operator bots submit. -/
inductive TxKind
  | genesisStartRound
  | genesisLockRound
  | executeRound
  | pauseCall
  | unpauseCall
deriving DecidableEq, Repr

/-- Record of one `sendTx` call performed during a tick. -/
structure Submission where
  kind : TxKind
  epoch : Option Int
  pendingAt : Bool
  ok : Bool
deriving DecidableEq, Repr

/-- Number of successful `executeRound` submissions in a trace. -/
def execSuccesses (l : List Submission) : Nat :=
  (l.filter (fun s => s.kind = TxKind.executeRound ∧ s.ok = true)).length

end OpBot

namespace WindowPolicy

/-- The three outcomes of the window decision for a scanned epoch. -/
inductive Decision
  | execute
  | markMissed
  | skip
deriving DecidableEq, Repr

/-- Window decision of `tryExecute` in src/unnamed/part_000 (lines 76-96):
the execute branch fires when `lockTime > 0 && oracleCalled &&
now >= lockTime + SAFE_DELAY && now <= lockTime + BUFFER_SECONDS`;
otherwise the missed branch fires when `lockTime > 0 &&
now > lockTime + BUFFER_SECONDS`; otherwise nothing happens.
With `safeDelay = 0` this is also the branch structure of `tryExecute`
in src/operator-bot.js lines 116-137. -/
def decision (safeDelay bufferSeconds now : Int) (r : OpBot.Round) : Decision :=
  if 0 < r.lockTimestamp ∧ r.oracleCalled = true ∧
      r.lockTimestamp + safeDelay ≤ now ∧ now ≤ r.lockTimestamp + bufferSeconds then
    Decision.execute
  else if 0 < r.lockTimestamp ∧ r.lockTimestamp + bufferSeconds < now then
    Decision.markMissed
  else
    Decision.skip

end WindowPolicy

namespace OpV1

open OpBot

/-- Point-in-time environment of one tick of the first src/operator-bot.js
variant: chain reads and the outcomes of the submissions the tick makes. -/
structure Env where
  now : Int
  currentEpoch : Int
  rounds : Int → Round
  bufferSeconds : Int
  genesisStartOnce : Bool
  genesisLockOnce : Bool
  paused : Bool
  txOk : Nat → Bool
  recoverFuel : Nat

/-- Mutable module state of the first src/operator-bot.js variant
(lines 22-23). -/
structure St where
  txPending : Bool
  lastHandledEpoch : Int
deriving DecidableEq, Repr

/-- Result of `tryExecute`: its boolean return value, the updated state,
the next submission index and the submissions it performed. -/
structure ExecResult where
  executed : Bool
  st : St
  k : Nat
  subs : List Submission
deriving Repr

/-- Function `tryExecute(epoch)` of src/operator-bot.js lines 103-140.
Returns early when `epoch <= lastHandledEpoch`; submits `executeRound`
(with `txPending` set true around the submission) when the window check
passes; marks the epoch handled without submitting when the window is
definitively missed. -/
def tryExecute (env : Env) (st : St) (k : Nat) (epoch : Int) : ExecResult :=
  if epoch ≤ st.lastHandledEpoch then
    ⟨false, st, k, []⟩
  else
    let r := env.rounds epoch
    if 0 < r.lockTimestamp ∧ r.oracleCalled = true ∧
        r.lockTimestamp ≤ env.now ∧ env.now ≤ r.lockTimestamp + env.bufferSeconds then
      let ok := env.txOk k
      let s : Submission := ⟨TxKind.executeRound, some epoch, true, ok⟩
      if ok then
        ⟨true, ⟨false, epoch⟩, k + 1, [s]⟩
      else
        ⟨false, ⟨false, st.lastHandledEpoch⟩, k + 1, [s]⟩
    else if 0 < r.lockTimestamp ∧ r.lockTimestamp + env.bufferSeconds < env.now then
      ⟨false, ⟨st.txPending, epoch⟩, k, []⟩
    else
      ⟨false, st, k, []⟩

/-- Function `bootstrapGenesis()` of src/operator-bot.js lines 80-100.
`Except` error means the inner `sendTx` threw (after its retries),
which propagates to the caller. The boolean is the returned
"bootstrapped" flag; `Nat` is the next submission index.
Note the function does not touch `txPending`. -/
def bootstrapGenesis (env : Env) (st : St) (k : Nat) :
    Except Unit (Bool × Nat) × List Submission :=
  if env.genesisStartOnce = false then
    ((if env.txOk k then Except.ok (true, k + 1) else Except.error ()),
      [⟨TxKind.genesisStartRound, none, st.txPending, env.txOk k⟩])
  else if env.genesisLockOnce = false then
    ((if env.txOk k then Except.ok (true, k + 1) else Except.error ()),
      [⟨TxKind.genesisLockRound, none, st.txPending, env.txOk k⟩])
  else
    (Except.ok (false, k), [])

/-- Whether the genesis bootstrap completed without throwing. -/
def bgSucceeded : Except Unit (Bool × Nat) → Bool
  | Except.ok _ => true
  | Except.error _ => false

/-- Next submission index after a genesis bootstrap call, given the
fallback index when it threw. -/
def bgNextK (fallback : Nat) : Except Unit (Bool × Nat) → Nat
  | Except.ok (_, k') => k'
  | Except.error _ => fallback

/-- One body of `recover()` (src/operator-bot.js lines 61-77) without the
retry-on-error recursion: pause when not already paused, then unpause,
then genesis bootstrap. The boolean is true when the body completed
without a submission failure. `recover` does not touch `txPending`. -/
def recoverOnce (env : Env) (st : St) (k : Nat) : Bool × Nat × List Submission :=
  if env.paused = false then
    if env.txOk k then
      if env.txOk (k + 1) then
        (bgSucceeded (bootstrapGenesis env st (k + 2)).1,
          bgNextK (k + 3) (bootstrapGenesis env st (k + 2)).1,
          [⟨TxKind.pauseCall, none, st.txPending, true⟩,
            ⟨TxKind.unpauseCall, none, st.txPending, true⟩] ++
            (bootstrapGenesis env st (k + 2)).2)
      else
        (false, k + 2,
          [⟨TxKind.pauseCall, none, st.txPending, true⟩,
            ⟨TxKind.unpauseCall, none, st.txPending, false⟩])
    else (false, k + 1, [⟨TxKind.pauseCall, none, st.txPending, false⟩])
  else
    if env.txOk k then
      (bgSucceeded (bootstrapGenesis env st (k + 1)).1,
        bgNextK (k + 2) (bootstrapGenesis env st (k + 1)).1,
        [⟨TxKind.unpauseCall, none, st.txPending, true⟩] ++
          (bootstrapGenesis env st (k + 1)).2)
    else (false, k + 1, [⟨TxKind.unpauseCall, none, st.txPending, false⟩])

/-- Function `recover()` of src/operator-bot.js lines 61-77: retries its body after
any failure. The source retries unboundedly; we cut the retry off with
explicit fuel, which is sound for every claim considered (all concern
the submissions of one body or whether recovery is entered at all). -/
def recover (env : Env) (st : St) : Nat → Nat → Nat × List Submission
  | k, 0 => (k, [])
  | k, Nat.succ fuel =>
    let r := recoverOnce env st k
    if r.1 then (r.2.1, r.2.2)
    else
      let rest := recover env st r.2.1 fuel
      (rest.1, r.2.2 ++ rest.2)

/-- Scan order of the main loop (src/operator-bot.js line 159):
current epoch, the next one, then the five previous ones. -/
def scanList (cur : Int) : List Int :=
  [cur, cur + 1, cur - 1, cur - 2, cur - 3, cur - 4, cur - 5]

/-- The scan loop of `checkAndExecute` (src/operator-bot.js lines 159-164):
for each epoch `e > 0` with `e > lastHandledEpoch`, call `tryExecute`
and stop as soon as it returns true. -/
def scanGo (env : Env) : List Int → St → Nat → St × Nat × List Submission
  | [], st, k => (st, k, [])
  | e :: rest, st, k =>
    if 0 < e ∧ st.lastHandledEpoch < e then
      let r := tryExecute env st k e
      if r.executed then (r.st, r.k, r.subs)
      else
        let next := scanGo env rest r.st r.k
        (next.1, next.2.1, r.subs ++ next.2.2)
    else scanGo env rest st k

/-- Function `checkAndExecute()` of src/operator-bot.js lines 143-176: skip when
`txPending`; genesis bootstrap (early return when a genesis step was
performed, and the tick-level catch clears `txPending` when it threw);
then the epoch scan; then the stall check that calls `recover()` when
the current epoch has not advanced past `lastHandledEpoch` and the
contract is not paused. -/
def checkAndExecute (env : Env) (st : St) : St × List Submission :=
  if st.txPending then (st, [])
  else
    match bootstrapGenesis env st 0 with
    | (Except.error _, subs) => (⟨false, st.lastHandledEpoch⟩, subs)
    | (Except.ok (true, _), subs) => (st, subs)
    | (Except.ok (false, k), _) =>
      let sc := scanGo env (scanList env.currentEpoch) st k
      if env.currentEpoch ≤ sc.1.lastHandledEpoch ∧ 0 < env.currentEpoch then
        if env.paused = false then
          let rec' := recover env sc.1 sc.2.1 env.recoverFuel
          (sc.1, sc.2.2 ++ rec'.2)
        else (sc.1, sc.2.2)
      else (sc.1, sc.2.2)

/-- Outcome of one attempt inside a retrying `sendTx` loop: a receipt
confirmed by `tx.wait(2)`, or a thrown error. -/
inductive Attempt
  | ok (receipt : Nat)
  | err (e : Nat)
deriving DecidableEq, Repr

/-- Whether an attempt outcome is a confirmed receipt. -/
def Attempt.isOk : Attempt → Bool
  | Attempt.ok _ => true
  | Attempt.err _ => false

/-- The retry loop of `sendTx` (src/operator-bot.js lines 34-58 with
`maxA = 3`, lines 246-264 and src/unnamed/part_004 lines 96-117 with
`maxA = 5`): attempt numbers count up from 1; a successful attempt
returns its receipt; a failure at the last allowed attempt rethrows the
error. Returns the result together with the index of the last attempt
performed. -/
def sendTxAux (env : Nat → Attempt) (maxA attempt : Nat) : Except Nat Nat × Nat :=
  match env attempt with
  | Attempt.ok r => (Except.ok r, attempt)
  | Attempt.err e =>
    if _h : maxA ≤ attempt then (Except.error e, attempt)
    else sendTxAux env maxA (attempt + 1)
termination_by maxA - attempt
decreasing_by omega

/-- Function `sendTx` of the first src/operator-bot.js variant: three attempts. -/
def sendTx (env : Nat → Attempt) : Except Nat Nat × Nat := sendTxAux env 3 1

end OpV1

namespace OpV2

open OpBot

/-- Mutable module state of the second src/operator-bot.js variant
(lines 237-239): the `lastAttemptedEpochs` map is modelled as a total
function defaulting to 0 (`lastAttemptedEpochs.get(epoch) || 0`). -/
structure St where
  txPending : Bool
  lastHandledEpoch : Int
  lastAttempted : Int → Int

/-- Result of the second variant's `tryExecute`. -/
structure Res where
  executed : Bool
  st : St
  k : Nat
  subs : List Submission

/-- The round `epoch - 2` check of src/operator-bot.js lines 317-323:
round N cannot be executed before round N-2 has a close timestamp in
the past ("Must let round N-2 be finished before executing N").
The second variant shares the `Env` shape of the first. -/
def canExecute (env : OpV1.Env) (epoch : Int) : Bool :=
  if 2 ≤ epoch then
    if (env.rounds (epoch - 2)).closeTimestamp = 0 ∨
        env.now < (env.rounds (epoch - 2)).closeTimestamp then false
    else true
  else true

/-- Function `tryExecute(epoch)` of src/operator-bot.js lines 303-347: gate on
`epoch <= lastHandledEpoch`, then a 30-second per-epoch retry cooldown,
then the lock window check plus the round N-2 condition; inside the
window, `txPending` is set, `lastAttemptedEpochs.set(epoch, now)` is
recorded before submitting, and on failure `txPending` is cleared while
`lastHandledEpoch` stays untouched. -/
def tryExecute (env : OpV1.Env) (st : St) (k : Nat) (epoch : Int) : Res :=
  if epoch ≤ st.lastHandledEpoch then ⟨false, st, k, []⟩
  else if env.now - st.lastAttempted epoch < 30 then ⟨false, st, k, []⟩
  else if 0 < (env.rounds epoch).lockTimestamp ∧
      (env.rounds epoch).lockTimestamp ≤ env.now ∧
      env.now ≤ (env.rounds epoch).lockTimestamp + env.bufferSeconds ∧
      canExecute env epoch = true then
    let ok := env.txOk k
    let s : Submission := ⟨TxKind.executeRound, some epoch, true, ok⟩
    let att : Int → Int := fun e => if e = epoch then env.now else st.lastAttempted e
    if ok then ⟨true, ⟨false, epoch, att⟩, k + 1, [s]⟩
    else ⟨false, ⟨false, st.lastHandledEpoch, att⟩, k + 1, [s]⟩
  else ⟨false, st, k, []⟩

end OpV2

namespace P4

open OpBot

/-- Point-in-time environment of the second src/unnamed/part_004 variant
(lines 276-586): round snapshots plus the oracle feed data its forced
execution path consults. -/
structure Env where
  now : Int
  rounds : Int → Round
  bufferSeconds : Int
  oracleRoundId : Int
  oracleUpdatedAt : Int
  oracleLatestRoundId : Int
  oracleUpdateAllowance : Int
  txOk : Nat → Bool

/-- The round `epoch - 2` diagnosis of src/unnamed/part_004 lines 403-414
(`_safeEndRound` precondition). -/
def canEndPrevious (env : Env) (epoch : Int) : Bool :=
  if 2 ≤ epoch then
    if (env.rounds (epoch - 2)).closeTimestamp = 0 ∨
        env.now < (env.rounds (epoch - 2)).closeTimestamp then false
    else true
  else true

/-- The shared submission block of both execution paths of
src/unnamed/part_004 `tryExecute` (lines 418-431 and 445-458):
`txPending := true`, `lastAttemptedEpochs.set(epoch, now)`, submit,
then update `lastHandledEpoch` only on success. -/
def submitExec (env : Env) (st : OpV2.St) (k : Nat) (epoch : Int) : OpV2.Res :=
  let ok := env.txOk k
  let s : Submission := ⟨TxKind.executeRound, some epoch, true, ok⟩
  let att : Int → Int := fun e => if e = epoch then env.now else st.lastAttempted e
  if ok then ⟨true, ⟨false, epoch, att⟩, k + 1, [s]⟩
  else ⟨false, ⟨false, st.lastHandledEpoch, att⟩, k + 1, [s]⟩

/-- Function `tryExecute(epoch)` of src/unnamed/part_004 lines 384-484:
the `lastHandledEpoch` gate, a 15-second cooldown, the oracle-called
window branch, the forced-oracle branch (when `oracleCalled` is false
but fresh oracle data is available), and the trailing diagnostics that
deliberately leave a missed window unmarked ("Keep retrying"). -/
def tryExecute (env : Env) (st : OpV2.St) (k : Nat) (epoch : Int) : OpV2.Res :=
  if epoch ≤ st.lastHandledEpoch then ⟨false, st, k, []⟩
  else if env.now - st.lastAttempted epoch < 15 then ⟨false, st, k, []⟩
  else if 0 < (env.rounds epoch).lockTimestamp ∧
      (env.rounds epoch).oracleCalled = true ∧
      (env.rounds epoch).lockTimestamp ≤ env.now ∧
      env.now ≤ (env.rounds epoch).lockTimestamp + env.bufferSeconds ∧
      canEndPrevious env epoch = true then
    submitExec env st k epoch
  else if (0 < (env.rounds epoch).lockTimestamp ∧
      (env.rounds epoch).oracleCalled = false ∧
      (env.rounds epoch).lockTimestamp ≤ env.now ∧
      canEndPrevious env epoch = true) ∧
      (env.oracleLatestRoundId < env.oracleRoundId ∧
        env.oracleUpdatedAt ≤ env.now + env.oracleUpdateAllowance) then
    submitExec env st k epoch
  else
    ⟨false, st, k, []⟩

end P4

namespace P0

open OpBot

/-- Point-in-time environment of one tick of the first
src/unnamed/part_000 variant (lines 1-125): the safe-delay operator bot
whose scan loop ignores the return value of `tryExecute`. -/
structure Env where
  now : Int
  currentEpoch : Int
  rounds : Int → Round
  bufferSeconds : Int
  safeDelay : Int
  genesisStartOnce : Bool
  genesisLockOnce : Bool
  txOk : Nat → Bool

/-- Mutable module state of src/unnamed/part_000 (lines 23-24). -/
structure St where
  txPending : Bool
  lastExecutedEpoch : Int
deriving DecidableEq, Repr

/-- Function `bootstrapGenesis()` of src/unnamed/part_000 lines 43-62:
same shape as the operator-bot.js one; its single-attempt `sendTx` has
no retry, so a failure throws to the caller (`Except.error`). -/
def bootstrapGenesis (env : Env) (st : St) (k : Nat) :
    Except Unit (Bool × Nat) × List Submission :=
  if env.genesisStartOnce = false then
    ((if env.txOk k then Except.ok (true, k + 1) else Except.error ()),
      [⟨TxKind.genesisStartRound, none, st.txPending, env.txOk k⟩])
  else if env.genesisLockOnce = false then
    ((if env.txOk k then Except.ok (true, k + 1) else Except.error ()),
      [⟨TxKind.genesisLockRound, none, st.txPending, env.txOk k⟩])
  else
    (Except.ok (false, k), [])

/-- Function `tryExecute(epoch)` of src/unnamed/part_000 lines 65-99:
gate on `epoch <= lastExecutedEpoch`; inside the safe-delay window,
`txPending` is set and `sendTx` is awaited WITHOUT a try/catch, so a
failed submission throws with `txPending` still true (`Except.error`
carries the state at the throw); on success `txPending` is cleared and
`lastExecutedEpoch := epoch`; a definitively missed window is marked. -/
def tryExecute (env : Env) (st : St) (k : Nat) (epoch : Int) :
    Except (St × Nat × List Submission) (Bool × St × Nat × List Submission) :=
  if epoch ≤ st.lastExecutedEpoch then Except.ok (false, st, k, [])
  else if 0 < (env.rounds epoch).lockTimestamp ∧
      (env.rounds epoch).oracleCalled = true ∧
      (env.rounds epoch).lockTimestamp + env.safeDelay ≤ env.now ∧
      env.now ≤ (env.rounds epoch).lockTimestamp + env.bufferSeconds then
    if env.txOk k then
      Except.ok (true, ⟨false, epoch⟩, k + 1,
        [⟨TxKind.executeRound, some epoch, true, true⟩])
    else
      Except.error (⟨true, st.lastExecutedEpoch⟩, k + 1,
        [⟨TxKind.executeRound, some epoch, true, false⟩])
  else if 0 < (env.rounds epoch).lockTimestamp ∧
      (env.rounds epoch).lockTimestamp + env.bufferSeconds < env.now then
    Except.ok (false, ⟨st.txPending, epoch⟩, k, [])
  else
    Except.ok (false, st, k, [])

/-- The scan loop of `checkAndExecute` in src/unnamed/part_000 lines
112-116: `for (let e = currentEpoch - 2; e <= currentEpoch; e++)
{ if (e > 0) await tryExecute(e); }` — the return value of `tryExecute`
is ignored, so the loop NEVER breaks, not even after a successful
execution; an exception aborts the remaining iterations. -/
def scanGo (env : Env) :
    List Int → St → Nat →
      Except (St × Nat × List Submission) (St × Nat × List Submission)
  | [], st, k => Except.ok (st, k, [])
  | e :: rest, st, k =>
    if 0 < e then
      match tryExecute env st k e with
      | Except.error (st', k', subs) => Except.error (st', k', subs)
      | Except.ok (_, st', k', subs) =>
        match scanGo env rest st' k' with
        | Except.error (st'', k'', subs') => Except.error (st'', k'', subs ++ subs')
        | Except.ok (st'', k'', subs') => Except.ok (st'', k'', subs ++ subs')
    else scanGo env rest st k

/-- Function `checkAndExecute()` of src/unnamed/part_000 lines 102-121:
skip when `txPending`; genesis bootstrap with early return; then the
three-epoch scan `[currentEpoch-2, currentEpoch-1, currentEpoch]`; the
tick-level catch clears `txPending` after any throw. -/
def checkAndExecute (env : Env) (st : St) : St × List Submission :=
  if st.txPending then (st, [])
  else
    match bootstrapGenesis env st 0 with
    | (Except.error _, subs) => (⟨false, st.lastExecutedEpoch⟩, subs)
    | (Except.ok (true, _), subs) => (st, subs)
    | (Except.ok (false, k), _) =>
      match scanGo env
          [env.currentEpoch - 2, env.currentEpoch - 1, env.currentEpoch] st k with
      | Except.error (st', _, subs) => (⟨false, st'.lastExecutedEpoch⟩, subs)
      | Except.ok (st', _, subs) => (st', subs)

end P0

namespace P2

/-- Per-iteration outcome of the fee-bumping send loop of
src/unnamed/part_002: a confirmed transaction, a replacement-underpriced
rejection, or any other error. -/
inductive Outcome
  | ok (tx : Nat)
  | underpriced
  | fatal (e : Nat)
deriving DecidableEq, Repr

/-- The `while (attempt < 5)` loop of `sendTx` in src/unnamed/part_002
lines 51-103: a replacement-underpriced rejection bumps the fee and
increments `attempt`; any other error is rethrown at once; when the
loop guard fails the function throws "Failed after 5 attempts"
(encoded as `Except.error none`; a rethrown error is `some e`). The
second component counts the transactions sent. -/
def sendTxAux (env : Nat → Outcome) (attempt : Nat) : Except (Option Nat) Nat × Nat :=
  if _h : attempt < 5 then
    match env attempt with
    | Outcome.ok t => (Except.ok t, 1)
    | Outcome.underpriced =>
      let r := sendTxAux env (attempt + 1)
      (r.1, r.2 + 1)
    | Outcome.fatal e => (Except.error (some e), 1)
  else (Except.error none, 0)
termination_by 5 - attempt
decreasing_by omega

/-- Function `sendTx` of src/unnamed/part_002: the loop starts at attempt 0. -/
def sendTx (env : Nat → Outcome) : Except (Option Nat) Nat × Nat := sendTxAux env 0

end P2

namespace OB

open OpBot

/-- The price field of the API response as JavaScript's `Number` sees it:
absent (`Number(undefined)` is NaN), present but non-numeric (NaN), or a
numeric value. -/
inductive Raw
  | missing
  | nonNumeric
  | num (q : ℚ)
deriving DecidableEq

/-- Function `fetchPrice()` of src/oracle-bot.js lines 35-45: the body is wrapped
in try/catch returning null, so a failed HTTP request (input `none`)
yields `none`; `const price = Number(r.data.price)` followed by
`if (!price) throw new Error(..)` rejects an absent field, a non-numeric
field, and a zero price; otherwise the price is scaled to 1e8 and
rounded (`BigInt(Math.round(price * 1e8))`, with `Math.round x =
⌊x + 1/2⌋`). -/
def fetchPrice : Option Raw → Option Int
  | none => none
  | some Raw.missing => none
  | some Raw.nonNumeric => none
  | some (Raw.num q) => if q = 0 then none else some (round (q * 100000000))

/-- A transaction pushed by the price feeder. -/
inductive OPush
  | updatePrice (price : Int) (nonce : Int)
  | oracleUpdate (nonce : Int)
deriving DecidableEq

/-- Environment of one iteration of the price-feeder loop. -/
structure OEnv where
  raw : Option Raw
  pendingNonce : Int
  confirmedNonce : Int

/-- Function `loop()` of src/oracle-bot.js lines 62-86: fetch the price and
return before the push when it is null (and `pushPrice` is also
unreachable for a zero BigInt, since `!price` already returned);
otherwise resolve the nonce — falling back to the confirmed transaction
count when the pending count runs more than 5 ahead — and push one
`updatePrice` transaction. -/
def loopPushes (env : OEnv) : List OPush :=
  match fetchPrice env.raw with
  | none => []
  | some p =>
    if p = 0 then []
    else
      [OPush.updatePrice p
        (if env.confirmedNonce + 5 < env.pendingNonce then env.confirmedNonce
          else env.pendingNonce)]

/-- Per-attempt outcome of the retrying `fetchPrice` of
src/oracle-bot.js lines 128-151: an HTTP 429, another transport error,
or a response carrying a price field. -/
inductive FOut
  | rateLimited
  | otherErr
  | got (r : Raw)

/-- Function `fetchPrice()` of src/oracle-bot.js lines 128-151: attempts count up
from 1 while `attempt <= maxRetries` with `maxRetries = 5`; only a 429
response is retried (with exponential backoff), and only while
`attempt < maxRetries`; an invalid price throws `Price not found`,
which carries no 429 status and is rethrown at once. -/
def fetchPriceV2Aux (env : Nat → FOut) (attempt : Nat) : Except Unit Int :=
  if _h : attempt ≤ 5 then
    match env attempt with
    | FOut.got Raw.missing => Except.error ()
    | FOut.got Raw.nonNumeric => Except.error ()
    | FOut.got (Raw.num q) =>
      if q = 0 then Except.error () else Except.ok (round (q * 100000000))
    | FOut.otherErr => Except.error ()
    | FOut.rateLimited =>
      if attempt < 5 then fetchPriceV2Aux env (attempt + 1) else Except.error ()
  else Except.error ()
termination_by 5 - attempt
decreasing_by omega

/-- The retrying `fetchPrice` starting at attempt 1. -/
def fetchPriceV2 (env : Nat → FOut) : Except Unit Int := fetchPriceV2Aux env 1

/-- Function `updateOracle()` of src/oracle-bot.js lines 154-191: on a successful
fetch it pushes `oracle.updatePrice` and then `prediction.oracleUpdate`
at consecutive nonces (nonce-gap threshold 10 here); any throw from
`fetchPrice` is caught and nothing is pushed. -/
def updateOraclePushes (env : Nat → FOut) (pendingNonce confirmedNonce : Int) :
    List OPush :=
  match fetchPriceV2 env with
  | Except.error _ => []
  | Except.ok p =>
    [OPush.updatePrice p
        (if confirmedNonce + 10 < pendingNonce then confirmedNonce else pendingNonce),
      OPush.oracleUpdate
        ((if confirmedNonce + 10 < pendingNonce then confirmedNonce else pendingNonce) + 1)]

end OB

/-- Concrete tick environment for the c3 witness. -/
def c3env : OpV1.Env :=
  ⟨1005, 1, fun _ => ⟨1000, 0, true⟩, 30, true, true, true, fun _ => true, 0⟩

/-- Concrete tick environment for the c4 witness: every submission fails. -/
def c4env : OpV1.Env :=
  ⟨1005, 1, fun _ => ⟨1000, 0, true⟩, 30, true, true, true, fun _ => false, 0⟩

/-- Concrete scheduler state for the c4 witness. -/
def c4st : OpV2.St := ⟨false, 0, fun _ => 0⟩

/-- Environment of the c2 counterexample: epoch 1 locked at 1000 with
`oracleCalled`, observed at `now = 2000`, far past the 30-second buffer. -/
def c2env : P4.Env := ⟨2000, fun _ => ⟨1000, 0, true⟩, 30, 0, 0, 0, 0, fun _ => true⟩

/-- Initial scheduler state of the c2 counterexample. -/
def c2st : OpV2.St := ⟨false, 0, fun _ => 0⟩

/-- Environment of the c6 witness: neither genesis flag set. -/
def c6env : OpV1.Env :=
  ⟨1005, 1, fun _ => ⟨1000, 0, true⟩, 30, false, false, true, fun _ => true, 0⟩

/-- Environment of the c2_mark_missed witness. -/
def c2wenv : OpV1.Env :=
  ⟨2000, 1, fun _ => ⟨1000, 0, true⟩, 30, true, true, true, fun _ => true, 0⟩

/-- Environment of the c7 counterexample: epochs 2 and 3 are both inside
their execution window; the first submission of the tick fails and every
later one succeeds. -/
def c7env : OpV1.Env :=
  ⟨1005, 2, fun e => if e = 2 ∨ e = 3 then ⟨1000, 0, true⟩ else ⟨0, 0, false⟩, 30,
    true, true, true, fun k => decide (k ≠ 0), 0⟩

/-- Environment for the part_000 side of the c7 amendment: epochs 2 and
3 both inside their safe-delay window, every submission succeeding. -/
def p0TwoWindows : P0.Env :=
  ⟨1005, 3, fun e => if e = 2 ∨ e = 3 then ⟨1000, 0, true⟩ else ⟨0, 0, false⟩, 30, 2,
    true, true, fun _ => true⟩

/-- Environment of the c8 counterexample: genesis start flag unset. -/
def c8env : OpV1.Env :=
  ⟨10, 1, fun _ => ⟨0, 0, false⟩, 30, false, true, true, fun _ => true, 0⟩

/-- Environment of the c8 witness: epoch 1 inside its window. -/
def c8wenv : OpV1.Env :=
  ⟨1005, 1, fun _ => ⟨1000, 0, true⟩, 30, true, true, true, fun _ => true, 0⟩

/-- Environment of the c9 counterexample, not-paused side: current epoch
stalled at `lastHandledEpoch`, contract NOT paused. -/
def c9env : OpV1.Env :=
  ⟨10, 1, fun _ => ⟨0, 0, false⟩, 30, true, true, false, fun _ => true, 1⟩

/-- Environment of the c9 counterexample, paused side: identical but the
contract reports itself paused. -/
def c9envB : OpV1.Env :=
  ⟨10, 1, fun _ => ⟨0, 0, false⟩, 30, true, true, true, fun _ => true, 1⟩

/-- Environment of the c9 witness. -/
def c9wenv : OpV1.Env :=
  ⟨10, 1, fun _ => ⟨0, 0, false⟩, 30, true, true, false, fun _ => true, 1⟩

namespace OpBot

theorem execSuccesses_nil : execSuccesses [] = 0 := rfl

theorem execSuccesses_append (l₁ l₂ : List Submission) :
    execSuccesses (l₁ ++ l₂) = execSuccesses l₁ + execSuccesses l₂ := by
  simp [execSuccesses, List.filter_append]

end OpBot

namespace OpV1

open OpBot

theorem sendTxAux_attempts_le (env : Nat → Attempt) (maxA : Nat) :
    ∀ fuel attempt, maxA - attempt ≤ fuel → attempt ≤ maxA →
      (sendTxAux env maxA attempt).2 ≤ maxA := by
  intro fuel
  induction fuel with
  | zero =>
    intro attempt hf ha
    unfold sendTxAux
    split
    · exact ha
    · rw [dif_pos (by omega : maxA ≤ attempt)]
      exact ha
  | succ n ih =>
    intro attempt hf ha
    unfold sendTxAux
    split
    · exact ha
    · by_cases hm : maxA ≤ attempt
      · rw [dif_pos hm]; exact ha
      · rw [dif_neg hm]
        exact ih (attempt + 1) (by omega) (by omega)

theorem sendTxAux_ok_of_attempt (env : Nat → Attempt) (maxA : Nat) :
    ∀ fuel attempt, maxA - attempt ≤ fuel → attempt ≤ maxA →
      ∀ r, (sendTxAux env maxA attempt).1 = Except.ok r →
        ∃ j, attempt ≤ j ∧ j ≤ maxA ∧ env j = Attempt.ok r := by
  intro fuel
  induction fuel with
  | zero =>
    intro attempt hf ha r hr
    unfold sendTxAux at hr
    split at hr
    · next r' henv =>
        simp only [Except.ok.injEq] at hr
        exact ⟨attempt, le_refl _, ha, by rw [henv, hr]⟩
    · next e henv =>
        rw [dif_pos (by omega : maxA ≤ attempt)] at hr
        exact absurd hr (by simp)
  | succ n ih =>
    intro attempt hf ha r hr
    unfold sendTxAux at hr
    split at hr
    · next r' henv =>
        simp only [Except.ok.injEq] at hr
        exact ⟨attempt, le_refl _, ha, by rw [henv, hr]⟩
    · next e henv =>
        by_cases hm : maxA ≤ attempt
        · rw [dif_pos hm] at hr
          exact absurd hr (by simp)
        · rw [dif_neg hm] at hr
          obtain ⟨j, hj1, hj2, hj3⟩ := ih (attempt + 1) (by omega) (by omega) r hr
          exact ⟨j, by omega, hj2, hj3⟩

theorem sendTxAux_err_of_all_fail (env : Nat → Attempt) (maxA : Nat)
    (hall : ∀ j, (env j).isOk = false) :
    ∀ fuel attempt, maxA - attempt ≤ fuel →
      ∃ e, (sendTxAux env maxA attempt).1 = Except.error e := by
  intro fuel
  induction fuel with
  | zero =>
    intro attempt hf
    unfold sendTxAux
    split
    · next r henv =>
        have h := hall attempt
        rw [henv] at h
        exact absurd h (by simp [Attempt.isOk])
    · next e henv =>
        rw [dif_pos (by omega : maxA ≤ attempt)]
        exact ⟨e, rfl⟩
  | succ n ih =>
    intro attempt hf
    unfold sendTxAux
    split
    · next r henv =>
        have h := hall attempt
        rw [henv] at h
        exact absurd h (by simp [Attempt.isOk])
    · next e henv =>
        by_cases hm : maxA ≤ attempt
        · rw [dif_pos hm]; exact ⟨e, rfl⟩
        · rw [dif_neg hm]
          exact ih (attempt + 1) (by omega)

theorem bg_subs_kind (env : Env) (st : St) (k : Nat) (s : Submission)
    (hs : s ∈ (bootstrapGenesis env st k).2) :
    s.kind = TxKind.genesisStartRound ∨ s.kind = TxKind.genesisLockRound := by
  unfold bootstrapGenesis at hs
  split_ifs at hs <;> simp_all

theorem bg_ok_false_flags (env : Env) (st : St) (k k' : Nat)
    (h : (bootstrapGenesis env st k).1 = Except.ok (false, k')) :
    env.genesisStartOnce = true ∧ env.genesisLockOnce = true := by
  unfold bootstrapGenesis at h
  split_ifs at h <;> simp_all

theorem bg_execSuccesses (env : Env) (st : St) (k : Nat) :
    execSuccesses (bootstrapGenesis env st k).2 = 0 := by
  unfold bootstrapGenesis
  split_ifs <;> simp [execSuccesses]

theorem tryExecute_execSuccesses_le (env : Env) (st : St) (k : Nat) (e : Int) :
    execSuccesses (tryExecute env st k e).subs ≤ 1 := by
  unfold tryExecute
  dsimp only
  split_ifs <;> simp_all [execSuccesses]

theorem tryExecute_not_executed (env : Env) (st : St) (k : Nat) (e : Int)
    (h : (tryExecute env st k e).executed = false) :
    execSuccesses (tryExecute env st k e).subs = 0 := by
  unfold tryExecute at h ⊢
  dsimp only at h ⊢
  split_ifs at h ⊢ <;> simp_all [execSuccesses]

theorem tryExecute_subs_kind (env : Env) (st : St) (k : Nat) (e : Int)
    (s : Submission) (hs : s ∈ (tryExecute env st k e).subs) :
    s.kind = TxKind.executeRound := by
  unfold tryExecute at hs
  dsimp only at hs
  split_ifs at hs <;> simp_all

theorem scanGo_execSuccesses_le (env : Env) :
    ∀ (l : List Int) (st : St) (k : Nat),
      execSuccesses (scanGo env l st k).2.2 ≤ 1 := by
  intro l
  induction l with
  | nil => intro st k; simp [scanGo, execSuccesses]
  | cons e rest ih =>
    intro st k
    unfold scanGo
    split_ifs with hg
    · dsimp only
      by_cases hex : (tryExecute env st k e).executed = true
      · rw [if_pos hex]
        exact tryExecute_execSuccesses_le env st k e
      · rw [if_neg hex]
        rw [execSuccesses_append]
        have h1 := tryExecute_not_executed env st k e (Bool.not_eq_true _ ▸ eq_false_of_ne_true hex)
        have h2 := ih (tryExecute env st k e).st (tryExecute env st k e).k
        omega
    · exact ih st k

theorem scanGo_subs_kind (env : Env) :
    ∀ (l : List Int) (st : St) (k : Nat) (s : Submission),
      s ∈ (scanGo env l st k).2.2 → s.kind = TxKind.executeRound := by
  intro l
  induction l with
  | nil => intro st k s hs; simp [scanGo] at hs
  | cons e rest ih =>
    intro st k s hs
    unfold scanGo at hs
    split_ifs at hs with hg
    · dsimp only at hs
      by_cases hex : (tryExecute env st k e).executed = true
      · rw [if_pos hex] at hs
        exact tryExecute_subs_kind env st k e s hs
      · rw [if_neg hex] at hs
        rcases List.mem_append.mp hs with h | h
        · exact tryExecute_subs_kind env st k e s h
        · exact ih _ _ s h
    · exact ih st k s hs

theorem recoverOnce_execSuccesses (env : Env) (st : St) (k : Nat) :
    execSuccesses (recoverOnce env st k).2.2 = 0 := by
  unfold recoverOnce
  split_ifs <;>
    simp only [execSuccesses_append, bg_execSuccesses] <;>
    simp [execSuccesses]

theorem recoverOnce_subs_kind (env : Env) (st : St) (k : Nat) (s : Submission)
    (hs : s ∈ (recoverOnce env st k).2.2) :
    s.kind ≠ TxKind.executeRound := by
  unfold recoverOnce at hs
  split_ifs at hs
  · rcases List.mem_append.mp hs with h | h
    · rcases List.mem_cons.mp h with h | h
      · subst h; simp
      · rw [List.mem_singleton.mp h]; simp
    · rcases bg_subs_kind env st _ s h with hk | hk <;> simp [hk]
  · rcases List.mem_cons.mp hs with h | h
    · subst h; simp
    · rw [List.mem_singleton.mp h]; simp
  · rw [List.mem_singleton.mp hs]; simp
  · rcases List.mem_append.mp hs with h | h
    · rw [List.mem_singleton.mp h]; simp
    · rcases bg_subs_kind env st _ s h with hk | hk <;> simp [hk]
  · rw [List.mem_singleton.mp hs]; simp

theorem recover_execSuccesses (env : Env) (st : St) :
    ∀ (fuel k : Nat), execSuccesses (recover env st k fuel).2 = 0 := by
  intro fuel
  induction fuel with
  | zero => intro k; simp [recover, execSuccesses]
  | succ n ih =>
    intro k
    unfold recover
    dsimp only
    by_cases h : (recoverOnce env st k).1 = true
    · rw [if_pos h]
      exact recoverOnce_execSuccesses env st k
    · rw [if_neg h]
      rw [execSuccesses_append, recoverOnce_execSuccesses env st k, ih]

theorem recover_subs_kind (env : Env) (st : St) :
    ∀ (fuel k : Nat) (s : Submission), s ∈ (recover env st k fuel).2 →
      s.kind ≠ TxKind.executeRound := by
  intro fuel
  induction fuel with
  | zero => intro k s hs; simp [recover] at hs
  | succ n ih =>
    intro k s hs
    unfold recover at hs
    dsimp only at hs
    by_cases h : (recoverOnce env st k).1 = true
    · rw [if_pos h] at hs
      exact recoverOnce_subs_kind env st k s hs
    · rw [if_neg h] at hs
      rcases List.mem_append.mp hs with hm | hm
      · exact recoverOnce_subs_kind env st k s hm
      · exact ih _ s hm

end OpV1

namespace P2

theorem p2_sendTxAux_sends_le (env : Nat → Outcome) :
    ∀ fuel attempt, 5 - attempt ≤ fuel → (sendTxAux env attempt).2 ≤ 5 - attempt := by
  intro fuel
  induction fuel with
  | zero =>
    intro attempt hf
    unfold sendTxAux
    rw [dif_neg (by omega)]
    simp
  | succ n ih =>
    intro attempt hf
    unfold sendTxAux
    by_cases ha : attempt < 5
    · rw [dif_pos ha]
      cases henv : env attempt with
      | ok t => simp; omega
      | underpriced =>
        have := ih (attempt + 1) (by omega)
        simp only []
        omega
      | fatal e => simp; omega
    · rw [dif_neg ha]; simp

theorem p2_sendTxAux_ok_of_attempt (env : Nat → Outcome) :
    ∀ fuel attempt, 5 - attempt ≤ fuel →
      ∀ t, (sendTxAux env attempt).1 = Except.ok t →
        ∃ j, attempt ≤ j ∧ j < 5 ∧ env j = Outcome.ok t := by
  intro fuel
  induction fuel with
  | zero =>
    intro attempt hf t ht
    unfold sendTxAux at ht
    rw [dif_neg (by omega)] at ht
    exact absurd ht (by simp)
  | succ n ih =>
    intro attempt hf t ht
    unfold sendTxAux at ht
    by_cases ha : attempt < 5
    · rw [dif_pos ha] at ht
      cases henv : env attempt with
      | ok t' =>
        rw [henv] at ht
        simp only [Except.ok.injEq] at ht
        exact ⟨attempt, le_refl _, ha, by rw [henv, ht]⟩
      | underpriced =>
        rw [henv] at ht
        simp only [] at ht
        obtain ⟨j, hj1, hj2, hj3⟩ := ih (attempt + 1) (by omega) t ht
        exact ⟨j, by omega, hj2, hj3⟩
      | fatal e =>
        rw [henv] at ht
        exact absurd ht (by simp)
    · rw [dif_neg ha] at ht
      exact absurd ht (by simp)

theorem p2_sendTxAux_exhaust (env : Nat → Outcome)
    (hall : ∀ j, env j = Outcome.underpriced) :
    ∀ fuel attempt, 5 - attempt ≤ fuel →
      (sendTxAux env attempt).1 = Except.error none := by
  intro fuel
  induction fuel with
  | zero =>
    intro attempt hf
    unfold sendTxAux
    rw [dif_neg (by omega)]
  | succ n ih =>
    intro attempt hf
    unfold sendTxAux
    by_cases ha : attempt < 5
    · rw [dif_pos ha, hall attempt]
      exact ih (attempt + 1) (by omega)
    · rw [dif_neg ha]

end P2

/-- C1: for a scanned round with `lockTimestamp > 0` and `oracleCalled`,
the safe-delay window decision is `Execute` exactly when
`lockTimestamp + safeDelay ≤ now ≤ lockTimestamp + bufferSeconds`
(both boundaries inclusive); in the first src/operator-bot.js variant
(whose safe delay is 0) `tryExecute` submits `executeRound` exactly when
the decision is `Execute`; and with `lockTimestamp = 1000`,
`bufferSeconds = 30`, `safeDelay = 2`: `now = 1002` yields `Execute`,
`now = 1031` yields `MarkMissed`, `now = 999` yields `Skip`. -/
theorem c1_window_policy (sd buf now : Int) (r : OpBot.Round)
    (hl : 0 < r.lockTimestamp) (ho : r.oracleCalled = true) :
    (WindowPolicy.decision sd buf now r = WindowPolicy.Decision.execute ↔
      r.lockTimestamp + sd ≤ now ∧ now ≤ r.lockTimestamp + buf)
    ∧ (∀ (env : OpV1.Env) (st : OpV1.St) (k : Nat) (e : Int),
        st.lastHandledEpoch < e → env.rounds e = r →
        ((OpV1.tryExecute env st k e).subs ≠ [] ↔
          WindowPolicy.decision 0 env.bufferSeconds env.now r =
            WindowPolicy.Decision.execute))
    ∧ WindowPolicy.decision 2 30 1002 ⟨1000, 0, true⟩ = WindowPolicy.Decision.execute
    ∧ WindowPolicy.decision 2 30 1031 ⟨1000, 0, true⟩ = WindowPolicy.Decision.markMissed
    ∧ WindowPolicy.decision 2 30 999 ⟨1000, 0, true⟩ = WindowPolicy.Decision.skip := by
  refine ⟨?_, ?_, by decide, by decide, by decide⟩
  · unfold WindowPolicy.decision
    split_ifs with h1 h2
    · exact ⟨fun _ => ⟨h1.2.2.1, h1.2.2.2⟩, fun _ => rfl⟩
    · exact ⟨fun h => absurd h (by decide), fun hw => absurd ⟨hl, ho, hw.1, hw.2⟩ h1⟩
    · exact ⟨fun h => absurd h (by decide), fun hw => absurd ⟨hl, ho, hw.1, hw.2⟩ h1⟩
  · intro env st k e hgate hre
    have hgate' : ¬ e ≤ st.lastHandledEpoch := not_le.mpr hgate
    unfold OpV1.tryExecute WindowPolicy.decision
    rw [hre]
    simp only [if_neg hgate', add_zero]
    by_cases hw : 0 < r.lockTimestamp ∧ r.oracleCalled = true ∧
        r.lockTimestamp ≤ env.now ∧ env.now ≤ r.lockTimestamp + env.bufferSeconds
    · rw [if_pos hw, if_pos hw]
      refine ⟨fun _ => rfl, fun _ => ?_⟩
      dsimp only
      split <;> simp
    · rw [if_neg hw, if_neg hw]
      by_cases hm : 0 < r.lockTimestamp ∧ r.lockTimestamp + env.bufferSeconds < env.now
      · rw [if_pos hm, if_pos hm]
        simp
      · rw [if_neg hm, if_neg hm]
        simp

/-- Witness for c1_window_policy at the scenario round of the spec. -/
theorem c1_window_policy_witness :
    (0 : Int) < 1000 ∧
    WindowPolicy.decision 2 30 1002 ⟨1000, 0, true⟩ = WindowPolicy.Decision.execute :=
  ⟨by decide, (c1_window_policy 2 30 1002 ⟨1000, 0, true⟩ (by decide) rfl).2.2.1⟩

/-- C3: an epoch at or below `lastHandledEpoch` never produces a
submission and leaves the state unchanged — in the first
src/operator-bot.js variant via the `epoch <= lastHandledEpoch` gate,
and in the second variant also for epochs inside their 30-second retry
cooldown; repeating a tick after a terminal outcome is a no-op for that
epoch. -/
theorem c3_gate_idempotence :
    (∀ (env : OpV1.Env) (st : OpV1.St) (k : Nat) (e : Int),
        e ≤ st.lastHandledEpoch →
        OpV1.tryExecute env st k e = ⟨false, st, k, []⟩)
    ∧ (∀ (env : OpV1.Env) (st : OpV2.St) (k : Nat) (e : Int),
        e ≤ st.lastHandledEpoch ∨ env.now - st.lastAttempted e < 30 →
        OpV2.tryExecute env st k e = ⟨false, st, k, []⟩) := by
  constructor
  · intro env st k e h
    unfold OpV1.tryExecute
    rw [if_pos h]
  · intro env st k e h
    unfold OpV2.tryExecute
    by_cases h1 : e ≤ st.lastHandledEpoch
    · rw [if_pos h1]
    · rw [if_neg h1, if_pos (h.resolve_left h1)]

/-- Witness for c3_gate_idempotence: epoch 1 with lastHandledEpoch 1. -/
theorem c3_gate_idempotence_witness :
    (1 : Int) ≤ 1 ∧
    OpV1.tryExecute c3env ⟨false, 1⟩ 0 1 = ⟨false, ⟨false, 1⟩, 0, []⟩ :=
  ⟨le_refl 1, c3_gate_idempotence.1 c3env ⟨false, 1⟩ 0 1 (by decide)⟩

/-- C4: in the second src/operator-bot.js variant, when the window check
passes and the submission fails, `tryExecute` clears `txPending`, leaves
`lastHandledEpoch` unchanged and records `lastAttempted[epoch] = now`,
so the epoch stays eligible for retry after the cooldown. -/
theorem c4_failure_retry_state (env : OpV1.Env) (st : OpV2.St) (k : Nat) (e : Int)
    (hgate : st.lastHandledEpoch < e)
    (hcool : 30 ≤ env.now - st.lastAttempted e)
    (hwin : 0 < (env.rounds e).lockTimestamp ∧
      (env.rounds e).lockTimestamp ≤ env.now ∧
      env.now ≤ (env.rounds e).lockTimestamp + env.bufferSeconds ∧
      OpV2.canExecute env e = true)
    (hfail : env.txOk k = false) :
    (OpV2.tryExecute env st k e).executed = false
    ∧ (OpV2.tryExecute env st k e).st.txPending = false
    ∧ (OpV2.tryExecute env st k e).st.lastHandledEpoch = st.lastHandledEpoch
    ∧ (OpV2.tryExecute env st k e).st.lastAttempted e = env.now
    ∧ (OpV2.tryExecute env st k e).subs =
        [⟨OpBot.TxKind.executeRound, some e, true, false⟩] := by
  have h1 : ¬ e ≤ st.lastHandledEpoch := not_le.mpr hgate
  have h2 : ¬ env.now - st.lastAttempted e < 30 := not_lt.mpr hcool
  unfold OpV2.tryExecute
  rw [if_neg h1, if_neg h2, if_pos hwin]
  simp [hfail]

/-- Witness for c4_failure_retry_state at epoch 1 of c4env. -/
theorem c4_failure_retry_state_witness :
    c4st.lastHandledEpoch < 1 ∧
    (OpV2.tryExecute c4env c4st 0 1).st.lastAttempted 1 = c4env.now :=
  ⟨by decide,
    (c4_failure_retry_state c4env c4st 0 1 (by decide) (by decide)
      ⟨by decide, by decide, by decide, by decide⟩ rfl).2.2.2.1⟩

/-- C2 counterexample: in the src/unnamed/part_004 variant cited by the
claim, a round whose window is definitively missed (`lockTimestamp > 0`,
`now > lockTimestamp + bufferSeconds`) is NOT recorded in
`lastHandledEpoch` (the code logs the miss and keeps retrying), so the
claim that every variant marks missed epochs as handled is false. -/
theorem c2_counterexample :
    0 < (c2env.rounds 1).lockTimestamp
    ∧ (c2env.rounds 1).lockTimestamp + c2env.bufferSeconds < c2env.now
    ∧ c2st.lastHandledEpoch < 1
    ∧ (P4.tryExecute c2env c2st 0 1).subs = []
    ∧ (P4.tryExecute c2env c2st 0 1).st.lastHandledEpoch = 0 := by
  refine ⟨by decide, by decide, by decide, by decide, by decide⟩

/-- C2 (amended): in the first src/operator-bot.js variant (and the
safe-delay variant of src/unnamed/part_000), a scanned epoch whose
window is definitively missed is recorded in `lastHandledEpoch` with no
submission, and once recorded the gate makes every later tick a no-op
for that epoch; the src/unnamed/part_004 variant instead logs the miss
and leaves the epoch unmarked for retry. -/
theorem c2_mark_missed (env : OpV1.Env) (st : OpV1.St) (k k' : Nat) (e : Int)
    (hgate : st.lastHandledEpoch < e)
    (hl : 0 < (env.rounds e).lockTimestamp)
    (hmiss : (env.rounds e).lockTimestamp + env.bufferSeconds < env.now) :
    OpV1.tryExecute env st k e = ⟨false, ⟨st.txPending, e⟩, k, []⟩
    ∧ ∀ (env' : OpV1.Env) (p : Bool),
        OpV1.tryExecute env' ⟨p, e⟩ k' e = ⟨false, ⟨p, e⟩, k', []⟩ := by
  constructor
  · have hgate' : ¬ e ≤ st.lastHandledEpoch := not_le.mpr hgate
    have hw : ¬(0 < (env.rounds e).lockTimestamp ∧
        (env.rounds e).oracleCalled = true ∧
        (env.rounds e).lockTimestamp ≤ env.now ∧
        env.now ≤ (env.rounds e).lockTimestamp + env.bufferSeconds) :=
      fun h => absurd h.2.2.2 (not_le.mpr hmiss)
    unfold OpV1.tryExecute
    rw [if_neg hgate', if_neg hw, if_pos ⟨hl, hmiss⟩]
  · intro env' p
    unfold OpV1.tryExecute
    rw [if_pos (le_refl e)]

/-- C5: the retrying transaction senders never perform more than the
configured maximum number of attempts (3 in the first
src/operator-bot.js variant, 5 in the second and in the fee-bumping
src/unnamed/part_002 loop); every non-exceptional return is a receipt
produced by one of the attempts; and on exhausting the attempts the
error is raised to the caller instead of a null result. -/
theorem c5_retry_bound (env : Nat → OpV1.Attempt) (env2 : Nat → P2.Outcome) :
    (OpV1.sendTx env).2 ≤ 3
    ∧ (∀ r, (OpV1.sendTx env).1 = Except.ok r →
        ∃ j, 1 ≤ j ∧ j ≤ 3 ∧ env j = OpV1.Attempt.ok r)
    ∧ ((∀ j, (env j).isOk = false) → ∃ e, (OpV1.sendTx env).1 = Except.error e)
    ∧ (OpV1.sendTxAux env 5 1).2 ≤ 5
    ∧ (P2.sendTx env2).2 ≤ 5
    ∧ (∀ t, (P2.sendTx env2).1 = Except.ok t → ∃ j, j < 5 ∧ env2 j = P2.Outcome.ok t)
    ∧ ((∀ j, env2 j = P2.Outcome.underpriced) →
        (P2.sendTx env2).1 = Except.error none) := by
  refine ⟨?_, ?_, ?_, ?_, ?_, ?_, ?_⟩
  · exact OpV1.sendTxAux_attempts_le env 3 2 1 (by omega) (by omega)
  · intro r hr
    exact OpV1.sendTxAux_ok_of_attempt env 3 2 1 (by omega) (by omega) r hr
  · intro hall
    exact OpV1.sendTxAux_err_of_all_fail env 3 hall 2 1 (by omega)
  · exact OpV1.sendTxAux_attempts_le env 5 4 1 (by omega) (by omega)
  · have h := P2.p2_sendTxAux_sends_le env2 5 0 (by omega)
    simpa [P2.sendTx] using h.trans (by omega)
  · intro t ht
    obtain ⟨j, _, hj2, hj3⟩ := P2.p2_sendTxAux_ok_of_attempt env2 5 0 (by omega) t ht
    exact ⟨j, hj2, hj3⟩
  · intro hall
    exact P2.p2_sendTxAux_exhaust env2 hall 5 0 (by omega)

/-- Witness for c5_retry_bound: all attempts fail. -/
theorem c5_retry_bound_witness :
    (OpV1.sendTx (fun j => OpV1.Attempt.err j)).2 ≤ 3 :=
  (c5_retry_bound (fun j => OpV1.Attempt.err j) (fun _ => P2.Outcome.underpriced)).1

/-- C6: `genesisLockRound` is submitted by the genesis bootstrap only
when `genesisStartOnce` is true and `genesisLockOnce` is false; when
`genesisStartOnce` is not yet set, only `genesisStartRound` is
submitted; and whenever the genesis flags are not both set, the whole
tick performs no `executeRound` submission (it returns after the
genesis step without scanning). -/
theorem c6_genesis_ordering :
    (∀ (env : OpV1.Env) (st : OpV1.St) (k : Nat) (s : OpBot.Submission),
        s ∈ (OpV1.bootstrapGenesis env st k).2 →
        s.kind = OpBot.TxKind.genesisLockRound →
        env.genesisStartOnce = true ∧ env.genesisLockOnce = false)
    ∧ (∀ (env : OpV1.Env) (st : OpV1.St) (k : Nat),
        env.genesisStartOnce = false →
        (OpV1.bootstrapGenesis env st k).2.map OpBot.Submission.kind =
          [OpBot.TxKind.genesisStartRound])
    ∧ (∀ (env : OpV1.Env) (st : OpV1.St) (s : OpBot.Submission),
        (env.genesisStartOnce = false ∨ env.genesisLockOnce = false) →
        s ∈ (OpV1.checkAndExecute env st).2 →
        s.kind ≠ OpBot.TxKind.executeRound) := by
  refine ⟨?_, ?_, ?_⟩
  · intro env st k s hs hkind
    unfold OpV1.bootstrapGenesis at hs
    split_ifs at hs <;> simp_all
  · intro env st k h
    unfold OpV1.bootstrapGenesis
    rw [if_pos h]
    rfl
  · intro env st s hfl hs
    unfold OpV1.checkAndExecute at hs
    by_cases hp : st.txPending
    · rw [if_pos hp] at hs
      simp at hs
    · rw [if_neg hp] at hs
      rcases hbg : OpV1.bootstrapGenesis env st 0 with ⟨res, subs⟩
      rw [hbg] at hs
      cases res with
      | error e =>
        have hmem : s ∈ (OpV1.bootstrapGenesis env st 0).2 := by
          rw [hbg]; exact hs
        rcases OpV1.bg_subs_kind env st 0 s hmem with h | h <;> simp [h]
      | ok v =>
        obtain ⟨b, k'⟩ := v
        cases b with
        | true =>
          have hmem : s ∈ (OpV1.bootstrapGenesis env st 0).2 := by
            rw [hbg]; exact hs
          rcases OpV1.bg_subs_kind env st 0 s hmem with h | h <;> simp [h]
        | false =>
          have hflags := OpV1.bg_ok_false_flags env st 0 k' (by rw [hbg])
          rcases hfl with h | h <;> simp_all

/-- Witness for c6_genesis_ordering: with no genesis flag set, the
bootstrap submits exactly one genesisStartRound call. -/
theorem c6_genesis_ordering_witness :
    c6env.genesisStartOnce = false ∧
    (OpV1.bootstrapGenesis c6env ⟨false, 0⟩ 0).2.map OpBot.Submission.kind =
      [OpBot.TxKind.genesisStartRound] :=
  ⟨rfl, c6_genesis_ordering.2.1 c6env ⟨false, 0⟩ 0 rfl⟩

/-- Witness for c2_mark_missed: epoch 1 of c2wenv gets marked handled. -/
theorem c2_mark_missed_witness :
    (0 : Int) < 1000 ∧
    OpV1.tryExecute c2wenv ⟨false, 0⟩ 0 1 = ⟨false, ⟨false, 1⟩, 0, []⟩ :=
  ⟨by decide, (c2_mark_missed c2wenv ⟨false, 0⟩ 0 0 1 (by decide) (by decide) (by decide)).1⟩

/-- C7 counterexample: the scan loop of src/operator-bot.js breaks only
when `tryExecute` returns true (submission succeeded), so after a failed
submission for epoch 2 the same tick goes on to submit for epoch 3 —
two `executeRound` submissions in one tick, refuting the claim that the
tick stops after the first epoch for which a submission is made. -/
theorem c7_counterexample :
    (OpV1.checkAndExecute c7env ⟨false, 0⟩).2 =
      [⟨OpBot.TxKind.executeRound, some 2, true, false⟩,
        ⟨OpBot.TxKind.executeRound, some 3, true, true⟩] := by decide

/-- C7 (amended): in the FIRST src/operator-bot.js variant only, each
scheduler tick performs at most one SUCCESSFUL `executeRound`
submission — its scan stops at the first epoch whose submission
succeeds, while a failed submission does not stop the scan, so several
submissions may still be attempted in one tick. This at-most-one bound
is specific to that variant: the src/unnamed/part_000 (and part_004)
three-epoch scan loops ignore the return value of `tryExecute` and
never break, and a concrete part_000 tick with two open windows
performs two SUCCESSFUL `executeRound` submissions. -/
theorem c7_at_most_one_success :
    (∀ (env : OpV1.Env) (st : OpV1.St),
        OpBot.execSuccesses (OpV1.checkAndExecute env st).2 ≤ 1)
    ∧ (P0.checkAndExecute p0TwoWindows ⟨false, 0⟩).2 =
        [⟨OpBot.TxKind.executeRound, some 2, true, true⟩,
          ⟨OpBot.TxKind.executeRound, some 3, true, true⟩]
    ∧ OpBot.execSuccesses (P0.checkAndExecute p0TwoWindows ⟨false, 0⟩).2 = 2 := by
  refine ⟨?_, by decide, by decide⟩
  intro env st
  unfold OpV1.checkAndExecute
  by_cases hp : st.txPending = true
  · rw [if_pos hp]
    simp [OpBot.execSuccesses]
  · rw [if_neg hp]
    rcases hbg : OpV1.bootstrapGenesis env st 0 with ⟨res, subs⟩
    have hsubs : OpBot.execSuccesses subs = 0 := by
      have h := OpV1.bg_execSuccesses env st 0
      rw [hbg] at h
      exact h
    cases res with
    | error e =>
      simp [hsubs]
    | ok v =>
      obtain ⟨b, k⟩ := v
      cases b with
      | true =>
        simp [hsubs]
      | false =>
        dsimp only
        split_ifs with hcond hpaused
        · rw [OpBot.execSuccesses_append]
          have h1 := OpV1.scanGo_execSuccesses_le env (OpV1.scanList env.currentEpoch) st k
          have h2 := OpV1.recover_execSuccesses env
            (OpV1.scanGo env (OpV1.scanList env.currentEpoch) st k).1
            env.recoverFuel
            (OpV1.scanGo env (OpV1.scanList env.currentEpoch) st k).2.1
          omega
        · exact OpV1.scanGo_execSuccesses_le env _ st k
        · exact OpV1.scanGo_execSuccesses_le env _ st k

/-- C8 counterexample: the genesis-bootstrap submission of the first
src/operator-bot.js variant is awaited while `txPending` is still
false — `bootstrapGenesis` never sets the flag — refuting the claim
that every awaited submission holds `txPending == true`. -/
theorem c8_counterexample :
    (OpV1.checkAndExecute c8env ⟨false, 0⟩).2 =
      [⟨OpBot.TxKind.genesisStartRound, none, false, true⟩]
    ∧ ((OpV1.checkAndExecute c8env ⟨false, 0⟩).2.all fun s => s.pendingAt) = false := by
  decide

/-- C8 (amended): in the first src/operator-bot.js variant, `txPending`
is held true for the duration of every `executeRound` submission made by
`tryExecute`, but the genesis-bootstrap submissions of a tick are
performed with `txPending` still false. -/
theorem c8_pending_during_submission :
    (∀ (env : OpV1.Env) (st : OpV1.St) (k : Nat) (e : Int) (s : OpBot.Submission),
        s ∈ (OpV1.tryExecute env st k e).subs → s.pendingAt = true)
    ∧ (∀ (env : OpV1.Env) (st : OpV1.St) (k : Nat) (s : OpBot.Submission),
        st.txPending = false → s ∈ (OpV1.bootstrapGenesis env st k).2 →
        s.pendingAt = false) := by
  constructor
  · intro env st k e s hs
    unfold OpV1.tryExecute at hs
    dsimp only at hs
    split_ifs at hs <;> simp_all
  · intro env st k s hp hs
    unfold OpV1.bootstrapGenesis at hs
    split_ifs at hs <;> simp_all

/-- Witness for c8_pending_during_submission: the executeRound
submission of a concrete tryExecute call carries pendingAt = true. -/
theorem c8_pending_during_submission_witness :
    (⟨OpBot.TxKind.executeRound, some 1, true, true⟩ : OpBot.Submission).pendingAt = true :=
  c8_pending_during_submission.1 c8wenv ⟨false, 0⟩ 0 1
    ⟨OpBot.TxKind.executeRound, some 1, true, true⟩ (by decide)

/-- C9 counterexample: with the epoch stalled, the code runs the recovery
sequence when the contract is NOT paused (submitting pause then unpause),
and does nothing when the contract IS paused — the opposite of the
claimed trigger "the external contract reports itself paused"; the
sequence also starts with a pause call before the unpause. -/
theorem c9_counterexample :
    c9env.paused = false
    ∧ (OpV1.checkAndExecute c9env ⟨false, 1⟩).2 =
        [⟨OpBot.TxKind.pauseCall, none, false, true⟩,
          ⟨OpBot.TxKind.unpauseCall, none, false, true⟩]
    ∧ c9envB.paused = true
    ∧ c9envB.currentEpoch ≤ (1 : Int)
    ∧ 0 < c9envB.currentEpoch
    ∧ (OpV1.checkAndExecute c9envB ⟨false, 1⟩).2 = [] := by decide

/-- C9 (amended): the recovery sequence of the first src/operator-bot.js
variant is attempted only when the current epoch has not advanced past
`lastHandledEpoch`, the epoch is positive, and the contract reports
itself NOT paused; the body then performs pause (the contract not being
paused on this path), then unpause, then the genesis bootstrap. -/
theorem c9_recovery_trigger :
    (∀ (env : OpV1.Env) (st : OpV1.St) (s : OpBot.Submission),
        s ∈ (OpV1.checkAndExecute env st).2 →
        (s.kind = OpBot.TxKind.pauseCall ∨ s.kind = OpBot.TxKind.unpauseCall) →
        env.paused = false ∧ 0 < env.currentEpoch ∧
          env.currentEpoch ≤ (OpV1.checkAndExecute env st).1.lastHandledEpoch)
    ∧ (∀ (env : OpV1.Env) (st : OpV1.St) (k : Nat),
        env.paused = false → env.txOk k = true → env.txOk (k + 1) = true →
        (OpV1.recoverOnce env st k).2.2 =
          [⟨OpBot.TxKind.pauseCall, none, st.txPending, true⟩,
            ⟨OpBot.TxKind.unpauseCall, none, st.txPending, true⟩] ++
            (OpV1.bootstrapGenesis env st (k + 2)).2) := by
  constructor
  · intro env st s hs hkind
    unfold OpV1.checkAndExecute at hs ⊢
    by_cases hp : st.txPending
    · rw [if_pos hp] at hs
      simp at hs
    · rw [if_neg hp] at hs ⊢
      rcases hbg : OpV1.bootstrapGenesis env st 0 with ⟨res, subs⟩
      rw [hbg] at hs
      cases res with
      | error e =>
        have hmem : s ∈ (OpV1.bootstrapGenesis env st 0).2 := by rw [hbg]; exact hs
        rcases OpV1.bg_subs_kind env st 0 s hmem with h | h <;>
          rcases hkind with h' | h' <;> simp_all
      | ok v =>
        obtain ⟨b, k⟩ := v
        cases b with
        | true =>
          have hmem : s ∈ (OpV1.bootstrapGenesis env st 0).2 := by rw [hbg]; exact hs
          rcases OpV1.bg_subs_kind env st 0 s hmem with h | h <;>
            rcases hkind with h' | h' <;> simp_all
        | false =>
          dsimp only at hs ⊢
          split_ifs at hs ⊢ with hcond hpaused
          · exact ⟨hpaused, hcond.2, hcond.1⟩
          · have h := OpV1.scanGo_subs_kind env (OpV1.scanList env.currentEpoch) st k s hs
            rcases hkind with h' | h' <;> simp_all
          · have h := OpV1.scanGo_subs_kind env (OpV1.scanList env.currentEpoch) st k s hs
            rcases hkind with h' | h' <;> simp_all
  · intro env st k hpaused hok hok2
    unfold OpV1.recoverOnce
    rw [if_pos hpaused, if_pos hok, if_pos hok2]

/-- Witness for c9_recovery_trigger: one recover body on c9wenv performs
pause, then unpause, then the genesis bootstrap submissions. -/
theorem c9_recovery_trigger_witness :
    c9wenv.paused = false ∧
    (OpV1.recoverOnce c9wenv ⟨false, 1⟩ 0).2.2 =
      [⟨OpBot.TxKind.pauseCall, none, false, true⟩,
        ⟨OpBot.TxKind.unpauseCall, none, false, true⟩] ++
        (OpV1.bootstrapGenesis c9wenv ⟨false, 1⟩ 2).2 :=
  ⟨rfl, c9_recovery_trigger.2 c9wenv ⟨false, 1⟩ 0 rfl rfl rfl⟩

/-- C10: when the fetched price is absent, zero, or not a number, the
price-feeder iteration submits no updatePrice transaction: the
src/oracle-bot.js `fetchPrice` returns null (and its retrying variant
throws), and the loop returns before reaching the push. -/
theorem c10_invalid_price_no_push :
    (∀ env : OB.OEnv,
        (env.raw = some OB.Raw.missing ∨ env.raw = some OB.Raw.nonNumeric ∨
          env.raw = some (OB.Raw.num 0)) →
        OB.fetchPrice env.raw = none ∧ OB.loopPushes env = [])
    ∧ (∀ (fenv : Nat → OB.FOut) (p c : Int) (r : OB.Raw),
        fenv 1 = OB.FOut.got r →
        (r = OB.Raw.missing ∨ r = OB.Raw.nonNumeric ∨ r = OB.Raw.num 0) →
        OB.fetchPriceV2 fenv = Except.error () ∧
          OB.updateOraclePushes fenv p c = []) := by
  constructor
  · intro env h
    have hf : OB.fetchPrice env.raw = none := by
      rcases h with h | h | h <;> rw [h] <;> simp [OB.fetchPrice]
    refine ⟨hf, ?_⟩
    unfold OB.loopPushes
    rw [hf]
  · intro fenv p c r hf hr
    have herr : OB.fetchPriceV2 fenv = Except.error () := by
      unfold OB.fetchPriceV2 OB.fetchPriceV2Aux
      rw [dif_pos (by omega : 1 ≤ 5), hf]
      rcases hr with h | h | h <;> rw [h] <;> simp
    refine ⟨herr, ?_⟩
    unfold OB.updateOraclePushes
    rw [herr]

/-- Witness for c10_invalid_price_no_push: an absent price field. -/
theorem c10_invalid_price_no_push_witness :
    OB.fetchPrice (some OB.Raw.missing) = none ∧
    OB.loopPushes ⟨some OB.Raw.missing, 0, 0⟩ = [] :=
  c10_invalid_price_no_push.1 ⟨some OB.Raw.missing, 0, 0⟩ (Or.inl rfl)
